import Mathlib

/-!
Verification development for the inventory admin page
(src/frontend/app/dashboard/admin/inventory/page.tsx).

The TypeScript page is shallowly embedded below.  JavaScript strings are
modelled as Lean `String` (operating on `String.data : List Char` where
character-level behaviour matters), JavaScript numbers produced by
`Number(string)` are modelled by `JSNum` (NaN, plus/minus infinity, or an
exact rational value; exact rationals idealize the float mantissa, which is
irrelevant for the sign tests `<= 0` and `< 0` performed by the page),
`undefined`/`null` by `Option`, and the side effects of a handler (toasts,
router navigation, HTTP requests, the re-fetch of the list) by an explicit
`Effect` list.  The outcome of an awaited axios call is an explicit
`NetResult` argument: `ok` for a 2xx response, `errStatus code msg` for a
thrown error carrying a response with that status code and optional
`data.message`, `errNet` for a thrown error with no response object.
-/

/-! ## JavaScript string helpers -/

/-- The characters stripped by the JavaScript string `trim()` method
(ASCII whitespace, NBSP, BOM, and the line/paragraph separators). -/
def isJsWhitespace (c : Char) : Bool :=
  c = ' ' || c = '\t' || c = '\n' || c = '\r' || c = '\x0b' || c = '\x0c' ||
  c = '\u00A0' || c = '\uFEFF' || c = '\u2028' || c = '\u2029'

/-- JavaScript `s.trim()`. -/
def jsTrim (s : String) : String :=
  String.mk (((s.data.dropWhile isJsWhitespace).reverse.dropWhile isJsWhitespace).reverse)

/-! ## JavaScript numbers: the value of `Number(string)` -/

/-- The result of JavaScript `Number(s)`: NaN, an infinity, or a finite
value.  A finite value is idealized as the exact rational `n / d` (the
parser below always produces `0 < d`), so the sign tests `<= 0` and `< 0`
performed by the page are the sign tests on the numerator. -/
inductive JSNum
  | nan
  | posInf
  | negInf
  | num (n : ℤ) (d : ℕ)
deriving DecidableEq

/-- Digit run of a character list: the leading decimal digits and the rest. -/
def digitsToNat (l : List Char) : ℕ :=
  l.foldl (fun a c => a * 10 + (c.toNat - 48)) 0

/-- Exponent suffix of a decimal literal: empty means exponent 0, otherwise
the whole rest must be `e`/`E`, an optional sign, and at least one digit. -/
def parseExpPart : List Char → Option ℤ
  | [] => some 0
  | c :: r =>
    if c = 'e' ∨ c = 'E' then
      match r with
      | '+' :: r2 =>
        let d := r2.takeWhile Char.isDigit
        if d = [] ∨ r2.dropWhile Char.isDigit ≠ [] then none else some (digitsToNat d : ℤ)
      | '-' :: r2 =>
        let d := r2.takeWhile Char.isDigit
        if d = [] ∨ r2.dropWhile Char.isDigit ≠ [] then none else some (-(digitsToNat d : ℤ))
      | _ =>
        let d := r.takeWhile Char.isDigit
        if d = [] ∨ r.dropWhile Char.isDigit ≠ [] then none else some (digitsToNat d : ℤ)
    else none

/-- Unsigned decimal literal (`Digits`, `Digits .`, `Digits . Digits`,
`. Digits`, each with an optional exponent); the result is the mantissa
(the digits of the integer and fraction parts read as one natural number)
together with the decimal exponent, so the value is `mantissa * 10 ^ exp`;
`none` is NaN. -/
def parseDec (l : List Char) : Option (ℕ × ℤ) :=
  let ip := l.takeWhile Char.isDigit
  let r1 := l.dropWhile Char.isDigit
  match r1 with
  | '.' :: r2 =>
    let fp := r2.takeWhile Char.isDigit
    let r3 := r2.dropWhile Char.isDigit
    if ip = [] ∧ fp = [] then none
    else (parseExpPart r3).map (fun e => (digitsToNat (ip ++ fp), e - (fp.length : ℤ)))
  | _ =>
    if ip = [] then none
    else (parseExpPart r1).map (fun e => (digitsToNat ip, e))

/-- The finite JavaScript number `sign * m * 10 ^ ex`, as a numerator over
a positive power-of-ten denominator. -/
def mkFinite (pos : Bool) (m : ℕ) (ex : ℤ) : JSNum :=
  let n : ℤ := if pos then (m : ℤ) else -(m : ℤ)
  if 0 ≤ ex then JSNum.num (n * ((Nat.pow 10 ex.toNat : ℕ) : ℤ)) 1
  else JSNum.num n (Nat.pow 10 (-ex).toNat)

/-- Value of one hexadecimal digit character. -/
def hexDigitVal (c : Char) : Option ℕ :=
  if c.isDigit then some (c.toNat - 48)
  else if 'a' ≤ c ∧ c ≤ 'f' then some (c.toNat - 87)
  else if 'A' ≤ c ∧ c ≤ 'F' then some (c.toNat - 55)
  else none

/-- Value of a digit string in the given radix; `none` when a character is
not a digit of that radix. -/
def radixVal (radix : ℕ) (l : List Char) : Option ℕ :=
  l.foldl (fun acc c =>
    match acc, hexDigitVal c with
    | some a, some v => if v < radix then some (a * radix + v) else none
    | _, _ => none) (some 0)

/-- Signed branch of `Number`: `Infinity` or a decimal literal. -/
def signedDec (l : List Char) (pos : Bool) : JSNum :=
  if l = "Infinity".data then (if pos then JSNum.posInf else JSNum.negInf)
  else
    match parseDec l with
    | some me => mkFinite pos me.1 me.2
    | none => JSNum.nan

/-- Non-decimal integer branch of `Number` (after `0x`, `0o`, `0b`). -/
def radixNum (radix : ℕ) (l : List Char) : JSNum :=
  if l = [] then JSNum.nan
  else
    match radixVal radix l with
    | some n => JSNum.num (n : ℤ) 1
    | none => JSNum.nan

/-- JavaScript `Number(s)` on a string: trim, empty means 0, optional sign
with decimal or `Infinity`, or an unsigned `0x`/`0o`/`0b` literal;
anything else is NaN. -/
def jsNumber (s : String) : JSNum :=
  match (jsTrim s).data with
  | [] => JSNum.num 0 1
  | '+' :: r => signedDec r true
  | '-' :: r => signedDec r false
  | '0' :: c :: r =>
    if c = 'x' ∨ c = 'X' then radixNum 16 r
    else if c = 'o' ∨ c = 'O' then radixNum 8 r
    else if c = 'b' ∨ c = 'B' then radixNum 2 r
    else signedDec ('0' :: c :: r) true
  | l => signedDec l true

/-- JavaScript comparison `x <= 0` (false for NaN; on a finite `n / d`
with positive denominator this is the sign test on the numerator). -/
def jsLe0 : JSNum → Bool
  | JSNum.nan => false
  | JSNum.posInf => false
  | JSNum.negInf => true
  | JSNum.num n _ => decide (n ≤ 0)

/-- JavaScript comparison `x < 0` (false for NaN). -/
def jsLt0 : JSNum → Bool
  | JSNum.nan => false
  | JSNum.posInf => false
  | JSNum.negInf => true
  | JSNum.num n _ => decide (n < 0)

/-- JavaScript comparison `x > 0` (false for NaN). -/
def jsGt0 : JSNum → Bool
  | JSNum.nan => false
  | JSNum.posInf => true
  | JSNum.negInf => false
  | JSNum.num n _ => decide (0 < n)

/-! ## Data model (interface InventoryItem, lines 19-32) -/

inductive Status
  | active
  | inactive
deriving DecidableEq

inductive Prescription
  | required
  | not_required
deriving DecidableEq

def statusStr : Status → String
  | Status.active => "active"
  | Status.inactive => "inactive"

def prescriptionStr : Prescription → String
  | Prescription.required => "required"
  | Prescription.not_required => "not_required"

/-- interface InventoryItem (lines 19-32).  Optional fields are `Option`;
the numeric `price` and `stock` are idealized as rationals. -/
structure InventoryItem where
  idStr : String
  name : String
  category : String
  price : ℚ
  stock : ℚ
  description : String
  status : Status
  prescription : Prescription
  images : Option (List String)
  image : Option String
  brand : Option String
  packSize : Option String
deriving DecidableEq

/-- The formData draft state (lines 41-52): all scalar fields are the raw
strings held by the controlled inputs. -/
structure Draft where
  name : String
  description : String
  category : String
  price : String
  stock : String
  brand : String
  packSize : String
  status : Status
  prescription : Prescription
  images : List String
deriving DecidableEq

/-! ## Effects and network outcomes -/

/-- One entry of the multipart FormData payload. -/
inductive FormPart (F : Type)
  | field (key : String) (value : String)
  | file (key : String) (f : F)
deriving DecidableEq

/-- An HTTP request issued through axios. -/
inductive Request (F : Type)
  | get (url : String)
  | post (url : String) (payload : List (FormPart F))
  | put (url : String) (payload : List (FormPart F))
  | delete (url : String)
deriving DecidableEq

/-- Observable side effects of one handler run, in program order. -/
inductive Effect (F : Type)
  | toastError (msg : String)
  | toastSuccess (msg : String)
  | redirect (path : String)
  | request (r : Request F)
  | refetch
deriving DecidableEq

/-- Outcome of an awaited axios call: a 2xx body, a thrown error whose
response has a status code and optional `data.message`, or a thrown error
with no response at all. -/
inductive NetResult (α : Type)
  | ok (body : α)
  | errStatus (code : ℕ) (msg : Option String)
  | errNet

/-- JavaScript `m || fallback` on the optional backend message, where the
empty string is falsy. -/
def orFalsy (m : Option String) (fallback : String) : String :=
  match m with
  | some s => if s = "" then fallback else s
  | none => fallback

def isRequest {F : Type} : Effect F → Bool
  | Effect.request _ => true
  | _ => false

def inventoryUrl : String := "http://localhost:8000/api/admin/inventory"

/-! ## Validation (handleSubmit lines 129-154) -/

def requiredFieldsMsg : String := "Please fill in all required fields (Pack Size is optional)."

def imageRequiredMsg : String := "Image is required when adding a new item."

def priceMsg : String := "Price must be greater than 0"

def stockMsg : String := "Stock cannot be negative"

/-- The first guard of handleSubmit (lines 129-136): name, description and
brand are trimmed before the emptiness test, category, price and stock are
tested raw (string falsiness is emptiness). -/
def requiredMissing (d : Draft) : Bool :=
  jsTrim d.name = "" || jsTrim d.description = "" || d.category = "" ||
  d.price = "" || d.stock = "" || jsTrim d.brand = ""

/-- The four sequential validation guards of handleSubmit (lines 129-154);
`some msg` is the toast of the first failing guard, `none` means the code
reaches the network stage. -/
def validate {F : Type} (d : Draft) (isEditMode : Bool) (imageFiles : List F) :
    Option String :=
  if requiredMissing d then some requiredFieldsMsg
  else if !isEditMode && imageFiles.length == 0 then some imageRequiredMsg
  else if jsLe0 (jsNumber d.price) then some priceMsg
  else if jsLt0 (jsNumber d.stock) then some stockMsg
  else none

/-! ## JSON.stringify on a string list (used at line 181) -/

/-- Escape of one character inside a JSON string literal. -/
def jsonEscapeChar (c : Char) : List Char :=
  if c = '"' then ['\\', '"']
  else if c = '\\' then ['\\', '\\']
  else if c = '\n' then ['\\', 'n']
  else if c = '\r' then ['\\', 'r']
  else if c = '\t' then ['\\', 't']
  else if c = '\x08' then ['\\', 'b']
  else if c = '\x0c' then ['\\', 'f']
  else if c.toNat < 32 then
    ['\\', 'u', '0', '0',
     (Nat.digitChar (c.toNat / 16)), (Nat.digitChar (c.toNat % 16))]
  else [c]

/-- JSON.stringify of one string. -/
def jsonString (s : String) : String :=
  String.mk ('"' :: (s.data.flatMap jsonEscapeChar) ++ ['"'])

/-- JSON.stringify of an array of strings. -/
def jsonStringifyList (l : List String) : String :=
  "[" ++ String.intercalate "," (l.map jsonString) ++ "]"

/-! ## Multipart payload construction (handleSubmit lines 164-182) -/

/-- The FormData built by handleSubmit: the nine scalar fields in append
order, then the image parts - the newly selected files when there are any,
otherwise (in edit mode, when the draft holds existing references) a single
serialized field, otherwise nothing. -/
def buildPostData {F : Type} (d : Draft) (imageFiles : List F) (isEditMode : Bool) :
    List (FormPart F) :=
  [FormPart.field "name" d.name,
   FormPart.field "description" d.description,
   FormPart.field "category" d.category,
   FormPart.field "price" d.price,
   FormPart.field "stock" d.stock,
   FormPart.field "brand" d.brand,
   FormPart.field "packSize" d.packSize,
   FormPart.field "status" (statusStr d.status),
   FormPart.field "prescription" (prescriptionStr d.prescription)] ++
  (if imageFiles.length > 0 then imageFiles.map (fun f => FormPart.file "images" f)
   else if isEditMode && d.images.length > 0 then
     [FormPart.field "images" (jsonStringifyList d.images)]
   else [])

/-- Key of a multipart payload entry. -/
def partKey {F : Type} : FormPart F → String
  | FormPart.field k _ => k
  | FormPart.file k _ => k

/-! ## handleSubmit (lines 125-219) -/

/-- handleSubmit as a function of the draft, the mode, the selected item
identifier, the pending files, the stored token and the network outcome;
the result is the list of observable effects in program order. -/
def handleSubmit {F : Type} (d : Draft) (isEditMode : Bool) (selectedId : Option String)
    (imageFiles : List F) (token : Option String) (res : NetResult Unit) :
    List (Effect F) :=
  match validate d isEditMode imageFiles with
  | some msg => [Effect.toastError msg]
  | none =>
    match token with
    | none => [Effect.toastError "Authentication token not found", Effect.redirect "/login"]
    | some _ =>
      let pd := buildPostData d imageFiles isEditMode
      let isPut := isEditMode && selectedId.isSome
      let req : Request F :=
        if isPut then Request.put (inventoryUrl ++ "/" ++ selectedId.getD "") pd
        else Request.post inventoryUrl pd
      match res with
      | NetResult.ok _ =>
        [Effect.request req,
         Effect.toastSuccess (if isPut then "Item updated successfully" else "Item added successfully"),
         Effect.refetch]
      | NetResult.errStatus code m =>
        if code = 401 then
          [Effect.request req, Effect.toastError "Authentication failed. Please login again.",
           Effect.redirect "/login"]
        else if code = 400 then
          [Effect.request req, Effect.toastError (orFalsy m "Invalid data provided")]
        else
          [Effect.request req, Effect.toastError (orFalsy m "Operation failed")]
      | NetResult.errNet =>
        [Effect.request req, Effect.toastError (orFalsy none "Operation failed")]

/-! ## fetchInventory (lines 84-112) -/

/-- fetchInventory as a function of the stored token, the network outcome
and the current inventory state; the result is the new inventory state and
the effect list. -/
def fetchInventory {F : Type} (token : Option String)
    (res : NetResult (List InventoryItem)) (inv : List InventoryItem) :
    List InventoryItem × List (Effect F) :=
  match token with
  | none => (inv, [Effect.toastError "Authentication token not found", Effect.redirect "/login"])
  | some _ =>
    match res with
    | NetResult.ok items => (items, [Effect.request (Request.get inventoryUrl)])
    | NetResult.errStatus code _ =>
      if code = 401 then
        (inv, [Effect.request (Request.get inventoryUrl),
               Effect.toastError "Authentication failed. Please login again.",
               Effect.redirect "/login"])
      else
        (inv, [Effect.request (Request.get inventoryUrl),
               Effect.toastError "Failed to fetch inventory"])
    | NetResult.errNet =>
      (inv, [Effect.request (Request.get inventoryUrl),
             Effect.toastError "Failed to fetch inventory"])

/-! ## handleDelete (lines 242-280) -/

/-- handleDelete as a function of the item identifier, the confirmation
dialog answer, the stored token and the network outcome (the response body
reduced to its truthiness). -/
def handleDelete {F : Type} (id : String) (confirmed : Bool) (token : Option String)
    (res : NetResult Bool) : List (Effect F) :=
  if !confirmed then []
  else
    match token with
    | none => [Effect.toastError "Authentication token not found", Effect.redirect "/login"]
    | some _ =>
      let req : Request F := Request.delete (inventoryUrl ++ "/" ++ id)
      match res with
      | NetResult.ok truthy =>
        if truthy then
          [Effect.request req, Effect.toastSuccess "Item deleted successfully", Effect.refetch]
        else [Effect.request req]
      | NetResult.errStatus code m =>
        if code = 401 then
          [Effect.request req, Effect.toastError "Authentication failed. Please login again.",
           Effect.redirect "/login"]
        else [Effect.request req, Effect.toastError (orFalsy m "Failed to delete item")]
      | NetResult.errNet =>
        [Effect.request req, Effect.toastError (orFalsy none "Failed to delete item")]

/-! ## handleEdit image resolution (line 223) -/

/-- The existingImages computation of handleEdit: the images sequence when
it is present and non-empty, else a singleton of the legacy image field
when that is truthy (a non-empty string), else the empty list.  This list
becomes the images field of the draft. -/
def handleEditImages (images : Option (List String)) (image : Option String) :
    List String :=
  match images with
  | some l =>
    if l.length > 0 then l
    else match image with
         | some s => if s = "" then [] else [s]
         | none => []
  | none =>
    match image with
    | some s => if s = "" then [] else [s]
    | none => []

/-! ## handleImageChange (lines 114-123) -/

/-- The image-selection state touched by handleImageChange. -/
structure ImgState (F : Type) where
  imageFiles : List F
  imagePreview : List String
deriving DecidableEq

/-- handleImageChange: when the selection is present and non-empty, both the
pending files and the previews are replaced (one object URL per file, in
order); otherwise the state is untouched.  The object-URL constructor is an
abstract parameter. -/
def handleImageChange {F : Type} (mkURL : F → String) (files : Option (List F))
    (st : ImgState F) : ImgState F :=
  match files with
  | some fs => if fs.length > 0 then ⟨fs, fs.map mkURL⟩ else st
  | none => st

/-! ## getImageUrl (lines 76-82) -/

/-- JavaScript single-character `split`: `jsSplit sep l` is the list of
separator-free chunks of `l`, with empty chunks kept, and at least one
chunk always present (splitting the empty string gives one empty chunk). -/
def jsSplit (sep : Char) : List Char → List (List Char)
  | [] => [[]]
  | c :: cs =>
    match jsSplit sep cs with
    | [] => [[]]
    | h :: t => if c = sep then [] :: h :: t else (c :: h) :: t

/-- JavaScript `arr.pop()` restricted to what getImageUrl consumes: the
last element of the split (the split is never empty). -/
def jsPop : List (List Char) → List Char
  | [] => []
  | [x] => x
  | _ :: y :: t => jsPop (y :: t)

/-- The regex replace of line 80: every backslash becomes a forward slash. -/
def normalizeSeps (l : List Char) : List Char :=
  l.map (fun c => if c = '\\' then '/' else c)

/-- getImageUrl (lines 76-82): falsy input gives the placeholder, otherwise
the fixed uploads URL followed by the last slash-separated component of the
separator-normalized path. -/
def getImageUrl (imagePath : Option String) : String :=
  match imagePath with
  | none => "/placeholder.png"
  | some s =>
    if s = "" then "/placeholder.png"
    else "http://localhost:8000/uploads/products/" ++
      String.mk (jsPop (jsSplit '/' (normalizeSeps s.data)))

/-! ## Helper lemmas -/

theorem requiredMsg_ne_imageMsg : requiredFieldsMsg ≠ imageRequiredMsg := by decide

theorem requiredMsg_ne_priceMsg : requiredFieldsMsg ≠ priceMsg := by decide

theorem requiredMsg_ne_stockMsg : requiredFieldsMsg ≠ stockMsg := by decide

theorem imageMsg_ne_priceMsg : imageRequiredMsg ≠ priceMsg := by decide

theorem imageMsg_ne_stockMsg : imageRequiredMsg ≠ stockMsg := by decide

theorem priceMsg_ne_stockMsg : priceMsg ≠ stockMsg := by decide

/-- When validation fails, handleSubmit only raises the toast of the failed
guard: no request, no redirect, no refetch. -/
theorem handleSubmit_of_validate_some {F : Type} (d : Draft) (e : Bool)
    (sid : Option String) (fs : List F) (tok : Option String)
    (res : NetResult Unit) (msg : String) (h : validate d e fs = some msg) :
    handleSubmit d e sid fs tok res = [Effect.toastError msg] := by
  unfold handleSubmit
  rw [h]

/-! ## Claim C1 -/

/-- Claim C1, counterexample: with every earlier check passing, a price
string that parses to NaN (here "abc") is not greater than 0, yet
validation accepts the draft and submit issues a network request instead of
rejecting with the price-specific message. -/
theorem c1_counterexample :
    jsGt0 (jsNumber "abc") = false ∧
    validate (⟨"a", "b", "adult_care", "abc", "1", "d", "", Status.active,
        Prescription.not_required, []⟩ : Draft) true ([] : List ℕ) = none ∧
    Effect.toastError priceMsg ∉
      handleSubmit (⟨"a", "b", "adult_care", "abc", "1", "d", "", Status.active,
        Prescription.not_required, []⟩ : Draft) true (some "i") ([] : List ℕ)
        (some "t") (NetResult.ok ()) ∧
    ((handleSubmit (⟨"a", "b", "adult_care", "abc", "1", "d", "", Status.active,
        Prescription.not_required, []⟩ : Draft) true (some "i") ([] : List ℕ)
        (some "t") (NetResult.ok ())).filter isRequest).length = 1 := by
  decide

/-- Claim C1 (amended): for a draft past the required-field and
create-mode-image checks, submit rejects with the price-specific message
precisely when the price string parses to a JavaScript number satisfying
`<= 0` (a NaN price fails that comparison and passes the check), and on
such a rejection the only effect is the price toast - no network call. -/
theorem c1_price_check {F : Type} (d : Draft) (e : Bool) (fs : List F)
    (sid : Option String) (tok : Option String) (res : NetResult Unit)
    (hreq : requiredMissing d = false)
    (himg : (!e && fs.length == 0) = false) :
    (validate d e fs = some priceMsg ↔ jsLe0 (jsNumber d.price) = true) ∧
    (jsLe0 (jsNumber d.price) = true →
      handleSubmit d e sid fs tok res = [Effect.toastError priceMsg]) ∧
    (jsNumber d.price = JSNum.nan → validate d e fs ≠ some priceMsg) := by
  have hiff : validate d e fs = some priceMsg ↔ jsLe0 (jsNumber d.price) = true := by
    unfold validate
    rw [hreq, himg]
    cases hp : jsLe0 (jsNumber d.price) with
    | true => simp
    | false =>
      cases hs : jsLt0 (jsNumber d.stock) <;>
        simp [priceMsg_ne_stockMsg.symm]
  refine ⟨hiff, fun hp => ?_, fun hnan => ?_⟩
  · exact handleSubmit_of_validate_some d e sid fs tok res priceMsg (hiff.mpr hp)
  · intro hval
    have : jsLe0 (jsNumber d.price) = true := hiff.mp hval
    rw [hnan] at this
    simp [jsLe0] at this

/-- Claim C1 witness: the amended statement instantiated at a concrete
rejecting draft (price "-1"). -/
theorem c1_price_check_witness :
    (validate (⟨"a", "b", "adult_care", "-1", "1", "d", "", Status.active,
        Prescription.not_required, []⟩ : Draft) true ([] : List ℕ) = some priceMsg ↔
      jsLe0 (jsNumber "-1") = true) ∧
    (jsLe0 (jsNumber "-1") = true →
      handleSubmit (⟨"a", "b", "adult_care", "-1", "1", "d", "", Status.active,
        Prescription.not_required, []⟩ : Draft) true (some "i") ([] : List ℕ)
        (some "t") (NetResult.ok ()) = [Effect.toastError priceMsg]) ∧
    (jsNumber "-1" = JSNum.nan →
      validate (⟨"a", "b", "adult_care", "-1", "1", "d", "", Status.active,
        Prescription.not_required, []⟩ : Draft) true ([] : List ℕ) ≠ some priceMsg) :=
  c1_price_check (⟨"a", "b", "adult_care", "-1", "1", "d", "", Status.active,
    Prescription.not_required, []⟩ : Draft) true ([] : List ℕ) (some "i") (some "t")
    (NetResult.ok ()) (by decide) (by decide)

/-! ## Claim C2 -/

/-- Claim C2, counterexample: with the required-field, image and price
checks passing, a stock string that parses to NaN (here "abc") is not
greater than or equal to 0, yet validation accepts the draft and submit
issues a network request instead of rejecting with the stock-specific
message. -/
theorem c2_counterexample :
    jsLt0 (jsNumber "abc") = false ∧ jsGt0 (jsNumber "abc") = false ∧
    jsNumber "abc" = JSNum.nan ∧
    validate (⟨"a", "b", "adult_care", "5", "abc", "d", "", Status.active,
        Prescription.not_required, []⟩ : Draft) true ([] : List ℕ) = none ∧
    Effect.toastError stockMsg ∉
      handleSubmit (⟨"a", "b", "adult_care", "5", "abc", "d", "", Status.active,
        Prescription.not_required, []⟩ : Draft) true (some "i") ([] : List ℕ)
        (some "t") (NetResult.ok ()) ∧
    ((handleSubmit (⟨"a", "b", "adult_care", "5", "abc", "d", "", Status.active,
        Prescription.not_required, []⟩ : Draft) true (some "i") ([] : List ℕ)
        (some "t") (NetResult.ok ())).filter isRequest).length = 1 := by
  decide

/-- Claim C2 (amended): for a draft past the required-field,
create-mode-image and price checks, submit rejects with the stock-specific
message precisely when the stock string parses to a JavaScript number
satisfying `< 0` (a NaN stock fails that comparison and passes the check),
and on such a rejection the only effect is the stock toast - no network
call. -/
theorem c2_stock_check {F : Type} (d : Draft) (e : Bool) (fs : List F)
    (sid : Option String) (tok : Option String) (res : NetResult Unit)
    (hreq : requiredMissing d = false)
    (himg : (!e && fs.length == 0) = false)
    (hp : jsLe0 (jsNumber d.price) = false) :
    (validate d e fs = some stockMsg ↔ jsLt0 (jsNumber d.stock) = true) ∧
    (jsLt0 (jsNumber d.stock) = true →
      handleSubmit d e sid fs tok res = [Effect.toastError stockMsg]) ∧
    (jsNumber d.stock = JSNum.nan → validate d e fs = none) := by
  have hiff : validate d e fs = some stockMsg ↔ jsLt0 (jsNumber d.stock) = true := by
    unfold validate
    rw [hreq, himg, hp]
    cases hs : jsLt0 (jsNumber d.stock) <;> simp
  refine ⟨hiff, fun hs => ?_, fun hnan => ?_⟩
  · exact handleSubmit_of_validate_some d e sid fs tok res stockMsg (hiff.mpr hs)
  · unfold validate
    rw [hreq, himg, hp, hnan]
    simp [jsLt0]

/-- Claim C2 witness: the amended statement instantiated at a concrete
rejecting draft (stock "-1"). -/
theorem c2_stock_check_witness :
    (validate (⟨"a", "b", "adult_care", "5", "-1", "d", "", Status.active,
        Prescription.not_required, []⟩ : Draft) true ([] : List ℕ) = some stockMsg ↔
      jsLt0 (jsNumber "-1") = true) ∧
    (jsLt0 (jsNumber "-1") = true →
      handleSubmit (⟨"a", "b", "adult_care", "5", "-1", "d", "", Status.active,
        Prescription.not_required, []⟩ : Draft) true (some "i") ([] : List ℕ)
        (some "t") (NetResult.ok ()) = [Effect.toastError stockMsg]) ∧
    (jsNumber "-1" = JSNum.nan →
      validate (⟨"a", "b", "adult_care", "5", "-1", "d", "", Status.active,
        Prescription.not_required, []⟩ : Draft) true ([] : List ℕ) = none) :=
  c2_stock_check (⟨"a", "b", "adult_care", "5", "-1", "d", "", Status.active,
    Prescription.not_required, []⟩ : Draft) true ([] : List ℕ) (some "i") (some "t")
    (NetResult.ok ()) (by decide) (by decide) (by decide)

/-! ## Claim C3 -/

/-- Claim C3, counterexample: the required-field guard trims only name,
description and brand; a whitespace-only stock string is empty after
trimming, yet it passes the guard (and then parses to 0, passing the stock
check too), so submit issues a network request instead of rejecting with
the required-fields message. -/
theorem c3_counterexample :
    jsTrim " " = "" ∧
    validate (⟨"a", "b", "adult_care", "5", " ", "d", "", Status.active,
        Prescription.not_required, []⟩ : Draft) true ([] : List ℕ) = none ∧
    Effect.toastError requiredFieldsMsg ∉
      handleSubmit (⟨"a", "b", "adult_care", "5", " ", "d", "", Status.active,
        Prescription.not_required, []⟩ : Draft) true (some "i") ([] : List ℕ)
        (some "t") (NetResult.ok ()) ∧
    ((handleSubmit (⟨"a", "b", "adult_care", "5", " ", "d", "", Status.active,
        Prescription.not_required, []⟩ : Draft) true (some "i") ([] : List ℕ)
        (some "t") (NetResult.ok ())).filter isRequest).length = 1 := by
  decide

/-- Claim C3 (amended): submit rejects with the required-fields message
precisely when name, description or brand is empty after trimming, or
category, price or stock is the empty string (untrimmed; packSize is never
checked); the guard runs before every other check, and on rejection the
only effect is the required-fields toast - no network call. -/
theorem c3_required_check {F : Type} (d : Draft) (e : Bool) (fs : List F)
    (sid : Option String) (tok : Option String) (res : NetResult Unit) :
    (validate d e fs = some requiredFieldsMsg ↔
      (jsTrim d.name = "" ∨ jsTrim d.description = "" ∨ d.category = "" ∨
       d.price = "" ∨ d.stock = "" ∨ jsTrim d.brand = "")) ∧
    ((jsTrim d.name = "" ∨ jsTrim d.description = "" ∨ d.category = "" ∨
       d.price = "" ∨ d.stock = "" ∨ jsTrim d.brand = "") →
      handleSubmit d e sid fs tok res = [Effect.toastError requiredFieldsMsg]) := by
  have hbool : requiredMissing d = true ↔
      (jsTrim d.name = "" ∨ jsTrim d.description = "" ∨ d.category = "" ∨
       d.price = "" ∨ d.stock = "" ∨ jsTrim d.brand = "") := by
    simp [requiredMissing, or_assoc]
  have h1 : validate d e fs = some requiredFieldsMsg ↔ requiredMissing d = true := by
    unfold validate
    cases h : requiredMissing d with
    | true => simp
    | false =>
      simp only [Bool.false_eq_true, if_false, iff_false]
      split_ifs <;>
        simp [requiredMsg_ne_imageMsg.symm, requiredMsg_ne_priceMsg.symm,
          requiredMsg_ne_stockMsg.symm]
  refine ⟨h1.trans hbool, fun h => ?_⟩
  exact handleSubmit_of_validate_some d e sid fs tok res requiredFieldsMsg
    (h1.mpr (hbool.mpr h))

/-- Claim C3 witness: the amended statement instantiated at a concrete
draft with an empty name. -/
theorem c3_required_check_witness :
    (validate (⟨"", "b", "adult_care", "5", "1", "d", "", Status.active,
        Prescription.not_required, []⟩ : Draft) true ([] : List ℕ) = some requiredFieldsMsg ↔
      (jsTrim "" = "" ∨ jsTrim "b" = "" ∨ "adult_care" = "" ∨
       "5" = "" ∨ "1" = "" ∨ jsTrim "d" = "")) ∧
    ((jsTrim "" = "" ∨ jsTrim "b" = "" ∨ "adult_care" = "" ∨
       "5" = "" ∨ "1" = "" ∨ jsTrim "d" = "") →
      handleSubmit (⟨"", "b", "adult_care", "5", "1", "d", "", Status.active,
        Prescription.not_required, []⟩ : Draft) true (some "i") ([] : List ℕ)
        (some "t") (NetResult.ok ()) = [Effect.toastError requiredFieldsMsg]) :=
  c3_required_check (⟨"", "b", "adult_care", "5", "1", "d", "", Status.active,
    Prescription.not_required, []⟩ : Draft) true ([] : List ℕ) (some "i") (some "t")
    (NetResult.ok ())

/-! ## Claim C4 -/

/-- Claim C4: a create-mode submit whose draft passes the required-field
guard but has no pending image file is rejected with the image-required
message and raises no other effect (in particular no network request);
in edit mode the image-required message can never arise, whatever the
draft and the selection. -/
theorem c4_create_image_check {F : Type} (d : Draft) (sid : Option String)
    (tok : Option String) (res : NetResult Unit)
    (hreq : requiredMissing d = false) :
    validate d false ([] : List F) = some imageRequiredMsg ∧
    handleSubmit d false sid ([] : List F) tok res = [Effect.toastError imageRequiredMsg] ∧
    (∀ (d2 : Draft) (fs2 : List F), validate d2 true fs2 ≠ some imageRequiredMsg) := by
  have hv : validate d false ([] : List F) = some imageRequiredMsg := by
    unfold validate
    rw [hreq]
    simp
  refine ⟨hv, handleSubmit_of_validate_some d false sid ([] : List F) tok res
    imageRequiredMsg hv, ?_⟩
  intro d2 fs2
  unfold validate
  cases h : requiredMissing d2 with
  | true => simp [requiredMsg_ne_imageMsg]
  | false =>
    simp only [Bool.false_eq_true, if_false, Bool.not_true, Bool.false_and]
    split_ifs <;>
      simp [imageMsg_ne_priceMsg.symm, imageMsg_ne_stockMsg.symm]

/-- Claim C4 witness: the statement instantiated at a concrete create-mode
draft with no selected image. -/
theorem c4_create_image_check_witness :
    validate (⟨"a", "b", "adult_care", "5", "1", "d", "", Status.active,
        Prescription.not_required, []⟩ : Draft) false ([] : List ℕ) = some imageRequiredMsg ∧
    handleSubmit (⟨"a", "b", "adult_care", "5", "1", "d", "", Status.active,
        Prescription.not_required, []⟩ : Draft) false (some "i") ([] : List ℕ)
        (some "t") (NetResult.ok ()) = [Effect.toastError imageRequiredMsg] ∧
    (∀ (d2 : Draft) (fs2 : List ℕ), validate d2 true fs2 ≠ some imageRequiredMsg) :=
  c4_create_image_check (⟨"a", "b", "adult_care", "5", "1", "d", "", Status.active,
    Prescription.not_required, []⟩ : Draft) (some "i") (some "t") (NetResult.ok ())
    (by decide)

/-! ## Last-component lemmas for getImageUrl -/

/-- The component after the last separator, as the spec describes it: the
longest separator-free suffix of the list. -/
def lastComponent (sep : Char) (l : List Char) : List Char :=
  (l.reverse.takeWhile (fun c => !(c == sep))).reverse

theorem takeWhile_append_last {α : Type} (p : α → Bool) (xs : List α) (a : α)
    (h : p a = false) : (xs ++ [a]).takeWhile p = xs.takeWhile p := by
  induction xs with
  | nil => simp [List.takeWhile_cons, h]
  | cons x xs ih =>
    simp only [List.cons_append, List.takeWhile_cons]
    cases hx : p x <;> simp [ih]

theorem takeWhile_of_all {α : Type} (p : α → Bool) (xs : List α)
    (h : ∀ x ∈ xs, p x = true) : xs.takeWhile p = xs := by
  induction xs with
  | nil => rfl
  | cons x xs ih =>
    simp only [List.takeWhile_cons]
    rw [h x (List.mem_cons_self x xs)]
    simp [ih fun y hy => h y (List.mem_cons_of_mem x hy)]

theorem takeWhile_append_stop {α : Type} (p : α → Bool) (xs ys : List α)
    (h : ∃ x ∈ xs, p x = false) : (xs ++ ys).takeWhile p = xs.takeWhile p := by
  induction xs with
  | nil =>
    obtain ⟨x, hx, -⟩ := h
    exact absurd hx (List.not_mem_nil x)
  | cons x xs ih =>
    simp only [List.cons_append, List.takeWhile_cons]
    cases hx : p x with
    | false => rfl
    | true =>
      obtain ⟨y, hy, hpy⟩ := h
      rcases List.mem_cons.mp hy with rfl | hy2
      · rw [hx] at hpy; cases hpy
      · simp [ih ⟨y, hy2, hpy⟩]

theorem jsSplit_ne_nil (sep : Char) (l : List Char) : jsSplit sep l ≠ [] := by
  cases l with
  | nil => simp [jsSplit]
  | cons c cs =>
    unfold jsSplit
    cases jsSplit sep cs with
    | nil => simp
    | cons h t =>
      by_cases hc : c = sep <;> simp [hc]

theorem jsSplit_of_not_mem (sep : Char) (l : List Char) (h : sep ∉ l) :
    jsSplit sep l = [l] := by
  induction l with
  | nil => rfl
  | cons c cs ih =>
    have hc : ¬ c = sep := fun hc => h (hc ▸ List.mem_cons_self c cs)
    have hcs : sep ∉ cs := fun hm => h (List.mem_cons_of_mem c hm)
    unfold jsSplit
    rw [ih hcs]
    simp [hc]

theorem jsSplit_length_of_mem (sep : Char) (l : List Char) (h : sep ∈ l) :
    2 ≤ (jsSplit sep l).length := by
  induction l with
  | nil => exact absurd h (List.not_mem_nil sep)
  | cons c cs ih =>
    unfold jsSplit
    cases hcs : jsSplit sep cs with
    | nil => exact absurd hcs (jsSplit_ne_nil sep cs)
    | cons h0 t =>
      by_cases hc : c = sep
      · simp [hc]
      · have hmem : sep ∈ cs := by
          rcases List.mem_cons.mp h with rfl | hm
          · exact absurd rfl hc
          · exact hm
        have := ih hmem
        rw [hcs] at this
        simpa [hc] using this

/-- The JavaScript idiom `l.split(sep).pop()` returns exactly the longest
separator-free suffix of `l`. -/
theorem jsPop_jsSplit (sep : Char) (l : List Char) :
    jsPop (jsSplit sep l) = lastComponent sep l := by
  induction l with
  | nil => rfl
  | cons c cs ih =>
    obtain ⟨h, t, hht⟩ : ∃ h t, jsSplit sep cs = h :: t := by
      cases hcs : jsSplit sep cs with
      | nil => exact absurd hcs (jsSplit_ne_nil sep cs)
      | cons h t => exact ⟨h, t, rfl⟩
    by_cases hc : c = sep
    · subst hc
      have e1 : jsSplit c (c :: cs) = [] :: h :: t := by
        unfold jsSplit
        rw [hht]
        simp
      rw [e1]
      have e2 : jsPop ([] :: h :: t) = jsPop (h :: t) := rfl
      rw [e2, ← hht, ih]
      unfold lastComponent
      rw [List.reverse_cons, takeWhile_append_last _ _ _ (by simp)]
    · have e1 : jsSplit sep (c :: cs) = (c :: h) :: t := by
        unfold jsSplit
        rw [hht]
        simp [hc]
      rw [e1]
      cases t with
      | nil =>
        have hnm : sep ∉ cs := by
          intro hmem
          have h2 := jsSplit_length_of_mem sep cs hmem
          rw [hht] at h2
          simp at h2
        have hcseq : h = cs := by
          have h2 := jsSplit_of_not_mem sep cs hnm
          rw [hht] at h2
          exact (List.cons_eq_cons.mp h2).1
        subst hcseq
        show c :: h = lastComponent sep (c :: h)
        unfold lastComponent
        rw [List.reverse_cons, takeWhile_of_all _ _ ?hall, List.reverse_append]
        · simp
        case hall =>
          intro x hx
          rcases List.mem_append.mp hx with hx2 | hx2
          · have : x ∈ h := List.mem_reverse.mp hx2
            simp only [Bool.not_eq_true']
            exact beq_eq_false_iff_ne.mpr (fun hxe => hnm (hxe ▸ this))
          · have : x = c := List.mem_singleton.mp hx2
            subst this
            simp only [Bool.not_eq_true']
            exact beq_eq_false_iff_ne.mpr hc
      | cons t0 t1 =>
        have hmem : sep ∈ cs := by
          by_contra hnm
          have h2 := jsSplit_of_not_mem sep cs hnm
          rw [hht] at h2
          simp at h2
        have e2 : jsPop ((c :: h) :: t0 :: t1) = jsPop (h :: t0 :: t1) := rfl
        rw [e2, ← hht, ih]
        unfold lastComponent
        rw [List.reverse_cons, takeWhile_append_stop]
        exact ⟨sep, List.mem_reverse.mpr hmem, by simp⟩

/-! ## Claim C5 -/

/-- Claim C5: getImageUrl is a pure function; an absent or empty reference
gives the placeholder path; a non-empty reference gives the fixed uploads
URL followed by the component after the last slash of the
backslash-normalized path; in particular the input with a mixed separator
ends in the plain filename. -/
theorem c5_getImageUrl (s : String) (h : s ≠ "") :
    getImageUrl none = "/placeholder.png" ∧
    getImageUrl (some "") = "/placeholder.png" ∧
    getImageUrl (some s) = "http://localhost:8000/uploads/products/" ++
      String.mk (lastComponent '/' (normalizeSeps s.data)) ∧
    getImageUrl (some "a/b\\c.png") = "http://localhost:8000/uploads/products/c.png" ∧
    (getImageUrl (some "a/b\\c.png")).data =
      "http://localhost:8000/uploads/products/".data ++ "c.png".data := by
  refine ⟨rfl, rfl, ?_, by decide, by decide⟩
  have e : getImageUrl (some s) = if s = "" then "/placeholder.png"
      else "http://localhost:8000/uploads/products/" ++
        String.mk (jsPop (jsSplit '/' (normalizeSeps s.data))) := rfl
  rw [e, if_neg h, jsPop_jsSplit]

/-- Claim C5 witness: the statement instantiated at the mixed-separator
path from the spec. -/
theorem c5_getImageUrl_witness :
    getImageUrl none = "/placeholder.png" ∧
    getImageUrl (some "") = "/placeholder.png" ∧
    getImageUrl (some "a/b\\c.png") = "http://localhost:8000/uploads/products/" ++
      String.mk (lastComponent '/' (normalizeSeps "a/b\\c.png".data)) ∧
    getImageUrl (some "a/b\\c.png") = "http://localhost:8000/uploads/products/c.png" ∧
    (getImageUrl (some "a/b\\c.png")).data =
      "http://localhost:8000/uploads/products/".data ++ "c.png".data :=
  c5_getImageUrl "a/b\\c.png" (by decide)

/-! ## Claim C6 -/

/-- Claim C6: handleEdit populates the draft image list with the images
sequence verbatim when it is non-empty; with the singleton of the legacy field
when the sequence is empty or absent and the legacy field is non-empty;
and with the empty list when both are empty or absent. -/
theorem c6_handleEdit_images (l : List String) (s : String) (img : Option String)
    (hl : l ≠ []) (hs : s ≠ "") :
    handleEditImages (some l) img = l ∧
    handleEditImages (some []) (some s) = [s] ∧
    handleEditImages none (some s) = [s] ∧
    handleEditImages (some []) none = [] ∧
    handleEditImages none none = [] ∧
    handleEditImages (some []) (some "") = [] ∧
    handleEditImages none (some "") = [] := by
  refine ⟨?_, by simp [handleEditImages, hs], by simp [handleEditImages, hs],
    rfl, rfl, rfl, rfl⟩
  simp [handleEditImages, List.length_pos.mpr hl]

/-- Claim C6 witness: instantiated at a one-element sequence and a concrete
legacy value. -/
theorem c6_handleEdit_images_witness :
    handleEditImages (some ["x"]) none = ["x"] ∧
    handleEditImages (some []) (some "y") = ["y"] ∧
    handleEditImages none (some "y") = ["y"] ∧
    handleEditImages (some []) none = [] ∧
    handleEditImages none none = [] ∧
    handleEditImages (some []) (some "") = [] ∧
    handleEditImages none (some "") = [] :=
  c6_handleEdit_images ["x"] "y" none (by decide) (by decide)

/-! ## Claim C7 -/

/-- Claim C7: a fetchInventory call that fails with any response error
other than 401, or with no response at all, leaves the inventory state
exactly unchanged and raises the generic fetch-failure toast; only a
successful response replaces the state, and it replaces it verbatim with
the response body; a missing token also leaves the state unchanged. -/
theorem c7_fetch_frame {F : Type} (t : String) (inv items : List InventoryItem)
    (code : ℕ) (m : Option String) (res0 : NetResult (List InventoryItem))
    (hc : code ≠ 401) :
    ((fetchInventory (F := F) (some t) (NetResult.errStatus code m) inv).1 = inv ∧
      Effect.toastError "Failed to fetch inventory" ∈
        (fetchInventory (F := F) (some t) (NetResult.errStatus code m) inv).2) ∧
    ((fetchInventory (F := F) (some t) NetResult.errNet inv).1 = inv ∧
      Effect.toastError "Failed to fetch inventory" ∈
        (fetchInventory (F := F) (some t) NetResult.errNet inv).2) ∧
    (fetchInventory (F := F) (some t) (NetResult.ok items) inv).1 = items ∧
    (fetchInventory (F := F) none res0 inv).1 = inv := by
  refine ⟨⟨?_, ?_⟩, ⟨rfl, by simp [fetchInventory]⟩, rfl, rfl⟩
  · simp [fetchInventory, hc]
  · simp [fetchInventory, hc]

/-- Claim C7 witness: instantiated at a 500 response, a network error, a
successful response, and a missing token. -/
theorem c7_fetch_frame_witness :
    ((fetchInventory (F := ℕ) (some "t") (NetResult.errStatus 500 none) []).1 = [] ∧
      Effect.toastError "Failed to fetch inventory" ∈
        (fetchInventory (F := ℕ) (some "t") (NetResult.errStatus 500 none) []).2) ∧
    ((fetchInventory (F := ℕ) (some "t") NetResult.errNet []).1 = [] ∧
      Effect.toastError "Failed to fetch inventory" ∈
        (fetchInventory (F := ℕ) (some "t") NetResult.errNet []).2) ∧
    (fetchInventory (F := ℕ) (some "t") (NetResult.ok []) []).1 = [] ∧
    (fetchInventory (F := ℕ) none NetResult.errNet []).1 = [] :=
  c7_fetch_frame "t" [] [] 500 none NetResult.errNet (by decide)

/-! ## Claim C8 -/

/-- Claim C8: a 401 response to any of the three network operations raises
the authentication-failure toast and a redirect to the login page, and the
effect trace holds exactly one request - the failed one is not retried.
For handleSubmit the draft is assumed to have passed validation (otherwise
no request is issued at all); for handleDelete the confirmation is assumed
answered positively. -/
theorem c8_unauthorized {F : Type} (t : String) (inv : List InventoryItem)
    (m1 m2 m3 : Option String) (d : Draft) (e : Bool) (sid : Option String)
    (fs : List F) (id : String)
    (hv : validate d e fs = none) :
    (Effect.toastError "Authentication failed. Please login again." ∈
        (fetchInventory (F := F) (some t) (NetResult.errStatus 401 m1) inv).2 ∧
      Effect.redirect "/login" ∈
        (fetchInventory (F := F) (some t) (NetResult.errStatus 401 m1) inv).2 ∧
      ((fetchInventory (F := F) (some t) (NetResult.errStatus 401 m1) inv).2.filter
        isRequest).length = 1) ∧
    (Effect.toastError "Authentication failed. Please login again." ∈
        handleSubmit d e sid fs (some t) (NetResult.errStatus 401 m2) ∧
      Effect.redirect "/login" ∈
        handleSubmit d e sid fs (some t) (NetResult.errStatus 401 m2) ∧
      ((handleSubmit d e sid fs (some t) (NetResult.errStatus 401 m2)).filter
        isRequest).length = 1) ∧
    (Effect.toastError "Authentication failed. Please login again." ∈
        handleDelete (F := F) id true (some t) (NetResult.errStatus 401 m3) ∧
      Effect.redirect "/login" ∈
        handleDelete (F := F) id true (some t) (NetResult.errStatus 401 m3) ∧
      ((handleDelete (F := F) id true (some t) (NetResult.errStatus 401 m3)).filter
        isRequest).length = 1) := by
  have hsub : handleSubmit d e sid fs (some t) (NetResult.errStatus 401 m2) =
      [Effect.request (if e && sid.isSome then
          Request.put (inventoryUrl ++ "/" ++ sid.getD "") (buildPostData d fs e)
        else Request.post inventoryUrl (buildPostData d fs e)),
       Effect.toastError "Authentication failed. Please login again.",
       Effect.redirect "/login"] := by
    unfold handleSubmit
    rw [hv]
    simp
  refine ⟨⟨?_, ?_, ?_⟩, ⟨?_, ?_, ?_⟩, ⟨?_, ?_, ?_⟩⟩ <;>
    simp [fetchInventory, handleDelete, hsub, isRequest]

/-! ## Claim C9 -/

/-- Claim C9, counterexample: an empty selection does not replace the
pending file set - the guard on a positive length leaves the previous
files and previews untouched, while the claim predicts both become
empty. -/
theorem c9_counterexample :
    handleImageChange (fun n => toString n) (some ([] : List ℕ))
      (⟨[7], ["u"]⟩ : ImgState ℕ) = (⟨[7], ["u"]⟩ : ImgState ℕ) ∧
    (⟨[7], ["u"]⟩ : ImgState ℕ).imageFiles ≠ ([] : List ℕ) ∧
    (⟨[7], ["u"]⟩ : ImgState ℕ).imagePreview ≠ ([] : List String) := by
  decide

/-- Claim C9 (amended): a non-empty selection replaces the pending file set
with exactly the selected files and regenerates the previews one per file
in the same order; an empty or absent selection leaves both unchanged. -/
theorem c9_selectImages {F : Type} (mkURL : F → String) (fs : List F)
    (st : ImgState F) (h : fs ≠ []) :
    handleImageChange mkURL (some fs) st = ⟨fs, fs.map mkURL⟩ ∧
    handleImageChange mkURL (some ([] : List F)) st = st ∧
    handleImageChange mkURL none st = st := by
  refine ⟨?_, rfl, rfl⟩
  simp [handleImageChange, List.length_pos.mpr h]

/-- Claim C9 witness: instantiated at a one-element selection. -/
theorem c9_selectImages_witness :
    handleImageChange (fun n => toString n) (some [1])
      (⟨[], []⟩ : ImgState ℕ) = ⟨[1], [1].map (fun n => toString n)⟩ ∧
    handleImageChange (fun n => toString n) (some ([] : List ℕ))
      (⟨[], []⟩ : ImgState ℕ) = (⟨[], []⟩ : ImgState ℕ) ∧
    handleImageChange (fun n => toString n) none
      (⟨[], []⟩ : ImgState ℕ) = (⟨[], []⟩ : ImgState ℕ) :=
  c9_selectImages (fun n => toString n) [1] (⟨[], []⟩ : ImgState ℕ) (by decide)

/-! ## Claim C10 -/

/-- Claim C10: an edit-mode payload built with no newly selected files and
an empty existing image list consists of exactly the nine scalar fields in
append order and holds no entry keyed images - neither file parts nor a
serialized reference list. -/
theorem c10_edit_payload_no_images {F : Type} (d : Draft)
    (h : d.images = []) :
    buildPostData (F := F) d [] true =
      [FormPart.field "name" d.name, FormPart.field "description" d.description,
       FormPart.field "category" d.category, FormPart.field "price" d.price,
       FormPart.field "stock" d.stock, FormPart.field "brand" d.brand,
       FormPart.field "packSize" d.packSize,
       FormPart.field "status" (statusStr d.status),
       FormPart.field "prescription" (prescriptionStr d.prescription)] ∧
    ∀ p ∈ buildPostData (F := F) d [] true, partKey p ≠ "images" := by
  have e : buildPostData (F := F) d [] true =
      [FormPart.field "name" d.name, FormPart.field "description" d.description,
       FormPart.field "category" d.category, FormPart.field "price" d.price,
       FormPart.field "stock" d.stock, FormPart.field "brand" d.brand,
       FormPart.field "packSize" d.packSize,
       FormPart.field "status" (statusStr d.status),
       FormPart.field "prescription" (prescriptionStr d.prescription)] := by
    simp [buildPostData, h]
  refine ⟨e, ?_⟩
  rw [e]
  intro p hp
  simp only [List.mem_cons, List.not_mem_nil, or_false] at hp
  rcases hp with rfl | rfl | rfl | rfl | rfl | rfl | rfl | rfl | rfl <;>
    simp [partKey]

/-- Claim C10 witness: instantiated at a concrete draft with an empty
existing image list. -/
theorem c10_edit_payload_no_images_witness :
    buildPostData (F := ℕ)
      (⟨"a", "b", "adult_care", "5", "1", "d", "", Status.active,
        Prescription.not_required, []⟩ : Draft) [] true =
      [FormPart.field "name" "a", FormPart.field "description" "b",
       FormPart.field "category" "adult_care", FormPart.field "price" "5",
       FormPart.field "stock" "1", FormPart.field "brand" "d",
       FormPart.field "packSize" "",
       FormPart.field "status" (statusStr Status.active),
       FormPart.field "prescription" (prescriptionStr Prescription.not_required)] ∧
    ∀ p ∈ buildPostData (F := ℕ)
      (⟨"a", "b", "adult_care", "5", "1", "d", "", Status.active,
        Prescription.not_required, []⟩ : Draft) [] true, partKey p ≠ "images" :=
  c10_edit_payload_no_images
    (⟨"a", "b", "adult_care", "5", "1", "d", "", Status.active,
      Prescription.not_required, []⟩ : Draft) rfl

/-- Claim C8 witness: the statement instantiated at a concrete token,
draft, selection and item identifier, with the validation hypothesis
discharged by evaluation. -/
theorem c8_unauthorized_witness :
    (Effect.toastError "Authentication failed. Please login again." ∈
        (fetchInventory (F := ℕ) (some "t") (NetResult.errStatus 401 none) []).2 ∧
      Effect.redirect "/login" ∈
        (fetchInventory (F := ℕ) (some "t") (NetResult.errStatus 401 none) []).2 ∧
      ((fetchInventory (F := ℕ) (some "t") (NetResult.errStatus 401 none) []).2.filter
        isRequest).length = 1) ∧
    (Effect.toastError "Authentication failed. Please login again." ∈
        handleSubmit (⟨"a", "b", "adult_care", "5", "1", "d", "", Status.active,
          Prescription.not_required, []⟩ : Draft) true (some "i") ([] : List ℕ)
          (some "t") (NetResult.errStatus 401 none) ∧
      Effect.redirect "/login" ∈
        handleSubmit (⟨"a", "b", "adult_care", "5", "1", "d", "", Status.active,
          Prescription.not_required, []⟩ : Draft) true (some "i") ([] : List ℕ)
          (some "t") (NetResult.errStatus 401 none) ∧
      ((handleSubmit (⟨"a", "b", "adult_care", "5", "1", "d", "", Status.active,
          Prescription.not_required, []⟩ : Draft) true (some "i") ([] : List ℕ)
          (some "t") (NetResult.errStatus 401 none)).filter isRequest).length = 1) ∧
    (Effect.toastError "Authentication failed. Please login again." ∈
        handleDelete (F := ℕ) "x" true (some "t") (NetResult.errStatus 401 none) ∧
      Effect.redirect "/login" ∈
        handleDelete (F := ℕ) "x" true (some "t") (NetResult.errStatus 401 none) ∧
      ((handleDelete (F := ℕ) "x" true (some "t")
          (NetResult.errStatus 401 none)).filter isRequest).length = 1) :=
  c8_unauthorized "t" [] none none none
    (⟨"a", "b", "adult_care", "5", "1", "d", "", Status.active,
      Prescription.not_required, []⟩ : Draft) true (some "i") ([] : List ℕ) "x"
    (by decide)
